import Mathlib

/-
Verification of the subscription-saas seat-management and access-control
logic.  The Python source (app/models/*.py, app/routes/*.py) is shallowly
embedded: each Mongo-backed record class becomes a Lean structure, the
document store becomes an explicit `Store` value threaded through the route
handlers, and every HTTPException becomes an `Except` error carrying the
HTTP status code and detail string exactly as the source raises them.
Datetime-valued fields (created_at, updated_at, start_date, end_date,
renewal_date) and the opaque metadata maps are elided: no modelled
behaviour reads them.  ObjectId generation is modelled by passing the
fresh id as an explicit argument.
-/

namespace SaaS

/-- A User record (app/models/user.py, `User.__init__`).  `password` holds
the hashed password; `roles` follows the source default `roles or ["user"]`
applied at construction time by `mkUser`. -/
structure User where
  id : String
  name : String
  email : String
  password : String
  is_active : Bool
  roles : List String
  deriving Repr, DecidableEq

/-- A Tenant record (app/models/tenant.py, `Tenant.__init__`). -/
structure Tenant where
  id : String
  name : String
  domain : String
  owner_id : String
  is_active : Bool
  deriving Repr, DecidableEq

/-- A Subscription record (app/models/subscription.py,
`Subscription.__init__`).  `max_users = none` means unlimited; the Python
field is `Optional[int]`, hence `Option Int`. -/
structure Subscription where
  id : String
  tenant_id : String
  plan : String
  is_active : Bool
  subscribed_user_ids : List String
  max_users : Option Int
  billing_cycle : String
  payment_method_id : Option String
  deriving Repr, DecidableEq

/-- The three Mongo collections (the only shared mutable state of the
application), as lists of records. -/
structure Store where
  users : List User
  tenants : List Tenant
  subscriptions : List Subscription
  deriving Repr, DecidableEq

/-- An HTTPException as raised by the route handlers: status code plus the
detail string from the source. -/
structure HTTPError where
  status : Nat
  detail : String
  deriving Repr, DecidableEq

/-- `has_available_seats` (subscription.py lines 183-187): true iff
`max_users` is unset or the membership is strictly below it. -/
def Subscription.has_available_seats (s : Subscription) : Bool :=
  match s.max_users with
  | none => true
  | some m => decide ((s.subscribed_user_ids.length : Int) < m)

/-- The tail of `add_user` (subscription.py lines 157-164), reached once
the capacity guard has passed: return True if the user is already
subscribed, otherwise append and return True. -/
def Subscription.addAdmit (s : Subscription) (user_id : String) :
    Bool × Subscription :=
  if user_id ∈ s.subscribed_user_ids then (true, s)
  else (true, { s with subscribed_user_ids := s.subscribed_user_ids ++ [user_id] })

/-- `add_user` (subscription.py lines 146-164).  The capacity guard
`max_users is not None and len(subscribed_user_ids) >= max_users` is
checked first; note it fires even when the user is already subscribed.
The `self.save()` persistence is modelled by the caller threading the
returned record into the `Store`. -/
def Subscription.add_user (s : Subscription) (user_id : String) :
    Bool × Subscription :=
  match s.max_users with
  | some m =>
      if (s.subscribed_user_ids.length : Int) ≥ m then (false, s)
      else s.addAdmit user_id
  | none => s.addAdmit user_id

/-- `remove_user` (subscription.py lines 166-177): remove the first
occurrence (`list.remove`) and return True when present, otherwise return
False without touching the record. -/
def Subscription.remove_user (s : Subscription) (user_id : String) :
    Bool × Subscription :=
  if user_id ∈ s.subscribed_user_ids then
    (true, { s with subscribed_user_ids := s.subscribed_user_ids.erase user_id })
  else (false, s)

/-- `is_user_subscribed` (subscription.py lines 179-181). -/
def Subscription.is_user_subscribed (s : Subscription) (user_id : String) : Bool :=
  s.subscribed_user_ids.contains user_id

/-- One sequentially executed seat operation on a subscription. -/
inductive SeatOp where
  | add (uid : String)
  | remove (uid : String)
  deriving Repr, DecidableEq

/-- Apply one seat operation, keeping the resulting record. -/
def applySeatOp (s : Subscription) (op : SeatOp) : Subscription :=
  match op with
  | .add uid => (s.add_user uid).2
  | .remove uid => (s.remove_user uid).2

/-- Apply a sequence of seat operations left to right. -/
def applySeatOps (s : Subscription) (ops : List SeatOp) : Subscription :=
  ops.foldl applySeatOp s

theorem add_user_capacity (s : Subscription) (uid : String) (n : Int)
    (hmax : s.max_users = some n)
    (hlen : (s.subscribed_user_ids.length : Int) ≤ n) :
    (s.add_user uid).2.max_users = some n ∧
    ((s.add_user uid).2.subscribed_user_ids.length : Int) ≤ n := by
  unfold Subscription.add_user Subscription.addAdmit
  rw [hmax]
  by_cases hge : (s.subscribed_user_ids.length : Int) ≥ n
  · simp [hge, hmax, hlen]
  · by_cases hmem : uid ∈ s.subscribed_user_ids
    · simp [hge, hmem, hmax, hlen]
    · simp [hge, hmem, hmax]
      omega

theorem remove_user_capacity (s : Subscription) (uid : String) (n : Int)
    (hmax : s.max_users = some n)
    (hlen : (s.subscribed_user_ids.length : Int) ≤ n) :
    (s.remove_user uid).2.max_users = some n ∧
    ((s.remove_user uid).2.subscribed_user_ids.length : Int) ≤ n := by
  unfold Subscription.remove_user
  by_cases hmem : uid ∈ s.subscribed_user_ids
  · have herase := List.length_erase_of_mem hmem
    simp [hmem, hmax]
    omega
  · simp [hmem, hmax, hlen]

theorem applySeatOps_capacity (ops : List SeatOp) (s : Subscription) (n : Int)
    (hmax : s.max_users = some n)
    (hlen : (s.subscribed_user_ids.length : Int) ≤ n) :
    (applySeatOps s ops).max_users = some n ∧
    ((applySeatOps s ops).subscribed_user_ids.length : Int) ≤ n := by
  induction ops generalizing s with
  | nil => exact ⟨hmax, hlen⟩
  | cons op rest ih =>
    have hstep : (applySeatOp s op).max_users = some n ∧
        ((applySeatOp s op).subscribed_user_ids.length : Int) ≤ n := by
      cases op with
      | add uid => exact add_user_capacity s uid n hmax hlen
      | remove uid => exact remove_user_capacity s uid n hmax hlen
    have hfold : applySeatOps s (op :: rest) = applySeatOps (applySeatOp s op) rest := rfl
    rw [hfold]
    exact ih (applySeatOp s op) hstep.1 hstep.2

/-- C1: for every Subscription with `max_users = some n` whose membership
initially satisfies `len(subscribed_user_ids) <= n`, any sequence of
sequentially executed `add_user` / `remove_user` calls preserves
`len(subscribed_user_ids) <= n`. -/
theorem c1_capacity_invariant (s : Subscription) (n : Int) (ops : List SeatOp)
    (hmax : s.max_users = some n)
    (hlen : (s.subscribed_user_ids.length : Int) ≤ n) :
    ((applySeatOps s ops).subscribed_user_ids.length : Int) ≤ n :=
  (applySeatOps_capacity ops s n hmax hlen).2

/-- Concrete subscription used to witness C1: capacity 2, one seat taken. -/
def c1s : Subscription :=
  { id := "s1", tenant_id := "t1", plan := "basic", is_active := true,
    subscribed_user_ids := ["a"], max_users := some 2,
    billing_cycle := "monthly", payment_method_id := none }

/-- Witness for C1 at a concrete subscription and operation sequence. -/
theorem c1_capacity_invariant_witness :
    ((applySeatOps c1s [SeatOp.add "b", SeatOp.add "c", SeatOp.remove "a"]).subscribed_user_ids.length : Int) ≤ 2 :=
  c1_capacity_invariant c1s 2 [SeatOp.add "b", SeatOp.add "c", SeatOp.remove "a"]
    rfl (by decide)

/-- Concrete full subscription: capacity 1, member "u" holding the seat. -/
def c2s : Subscription :=
  { id := "s1", tenant_id := "t1", plan := "basic", is_active := true,
    subscribed_user_ids := ["u"], max_users := some 1,
    billing_cycle := "monthly", payment_method_id := none }

/-- C2 counterexample: on a full subscription, `add_user` of an
already-subscribed user returns False, although the claim says an
already-subscribed user always gets success. -/
theorem c2_counterexample :
    "u" ∈ c2s.subscribed_user_ids ∧ c2s.max_users = some 1 ∧
    Subscription.add_user c2s "u" = (false, c2s) := by
  refine ⟨by decide, rfl, by decide⟩

/-- C2 amended: `add_user` is idempotent on an already-subscribed user
provided the subscription still has available seats; and `add_user`
returns False exactly when `has_available_seats` is False (the capacity
guard fires regardless of whether the user is already a member). -/
theorem c2_amended (s : Subscription) (uid : String) :
    (s.has_available_seats = true → uid ∈ s.subscribed_user_ids →
      s.add_user uid = (true, s)) ∧
    ((s.add_user uid).1 = false ↔ s.has_available_seats = false) := by
  unfold Subscription.add_user Subscription.addAdmit Subscription.has_available_seats
  cases hm : s.max_users with
  | none =>
    by_cases hmem : uid ∈ s.subscribed_user_ids <;> simp [hmem]
  | some m =>
    by_cases hge : (s.subscribed_user_ids.length : Int) ≥ m
    · simp only [if_pos hge]
      constructor
      · intro hseats
        simp only [decide_eq_true_eq] at hseats
        exact absurd hseats (by omega)
      · simp only [decide_eq_false_iff_not, not_lt]
        exact ⟨fun _ => hge, fun _ => trivial⟩
    · simp only [if_neg hge]
      by_cases hmem : uid ∈ s.subscribed_user_ids
      · simp only [if_pos hmem]
        constructor
        · intro _ _
          trivial
        · simp only [decide_eq_false_iff_not]
          constructor
          · intro h
            exact absurd h (by simp)
          · intro h
            exact absurd (by omega : (s.subscribed_user_ids.length : Int) < m) h
      · simp only [if_neg hmem]
        constructor
        · intro _ hmem2
          exact absurd hmem2 hmem
        · simp only [decide_eq_false_iff_not]
          constructor
          · intro h
            exact absurd h (by simp)
          · intro h
            exact absurd (by omega : (s.subscribed_user_ids.length : Int) < m) h

/-- Concrete non-full subscription with member "u", to witness C2. -/
def c2w : Subscription :=
  { id := "s2", tenant_id := "t1", plan := "basic", is_active := true,
    subscribed_user_ids := ["u"], max_users := some 5,
    billing_cycle := "monthly", payment_method_id := none }

/-- Witness for the amended C2 at a concrete non-full subscription. -/
theorem c2_amended_witness :
    Subscription.add_user c2w "u" = (true, c2w) ∧
    ((Subscription.add_user c2w "u").1 = false ↔
      Subscription.has_available_seats c2w = false) :=
  ⟨(c2_amended c2w "u").1 (by decide) (by decide), (c2_amended c2w "u").2⟩

/-- C8: `remove_user` on a userId not in `subscribed_user_ids` returns
False and leaves the record unchanged (and, being a total function, never
raises); since the False branch performs no `save()`, the persisted record
is untouched as well. -/
theorem c8_remove_absent_noop (s : Subscription) (uid : String)
    (h : uid ∉ s.subscribed_user_ids) :
    s.remove_user uid = (false, s) := by
  unfold Subscription.remove_user
  simp [h]

/-- Witness for C8: removing a non-member from a concrete subscription. -/
theorem c8_remove_absent_noop_witness :
    Subscription.remove_user c1s "zz" = (false, c1s) :=
  c8_remove_absent_noop c1s "zz" (by decide)

/-- `User.find_one(db, {"_id": ...})`: first user whose id matches. -/
def Store.findUser (st : Store) (uid : String) : Option User :=
  st.users.find? (fun u => u.id == uid)

/-- `User.find_one(db, {"email": ...})`: first user whose email matches. -/
def Store.findUserByEmail (st : Store) (email : String) : Option User :=
  st.users.find? (fun u => u.email == email)

/-- `Tenant.find_one(db, {"_id": ...})`: first tenant whose id matches. -/
def Store.findTenant (st : Store) (tid : String) : Option Tenant :=
  st.tenants.find? (fun t => t.id == tid)

/-- `Tenant.find_one(db, {"domain": ...})`: first tenant whose domain
matches, active or not (the query does not filter on is_active). -/
def Store.findTenantByDomain (st : Store) (domain : String) : Option Tenant :=
  st.tenants.find? (fun t => t.domain == domain)

/-- `Subscription.find_one({"_id": ...})`: first subscription whose id
matches. -/
def Store.findSubscription (st : Store) (sid : String) : Option Subscription :=
  st.subscriptions.find? (fun s => s.id == sid)

/-- `collection.replace_one({"_id": ...}, data, upsert=True)` on the users
collection: replace the record with the matching id, inserting when no id
matches. -/
def Store.saveUser (st : Store) (u : User) : Store :=
  if st.users.any (fun x => x.id == u.id) then
    { st with users := st.users.map (fun x => if x.id == u.id then u else x) }
  else { st with users := st.users ++ [u] }

/-- Upserting replace on the tenants collection. -/
def Store.saveTenant (st : Store) (t : Tenant) : Store :=
  if st.tenants.any (fun x => x.id == t.id) then
    { st with tenants := st.tenants.map (fun x => if x.id == t.id then t else x) }
  else { st with tenants := st.tenants ++ [t] }

/-- Upserting replace on the subscriptions collection. -/
def Store.saveSubscription (st : Store) (s : Subscription) : Store :=
  if st.subscriptions.any (fun x => x.id == s.id) then
    { st with subscriptions := st.subscriptions.map (fun x => if x.id == s.id then s else x) }
  else { st with subscriptions := st.subscriptions ++ [s] }

/-- Request body of POST /users (routes/user.py, `UserCreate`). -/
structure UserCreate where
  name : String
  email : String
  password : String
  roles : Option (List String)
  deriving Repr, DecidableEq

/-- Request body of PUT /users/:id (routes/user.py, `UserUpdate`). -/
structure UserUpdate where
  name : Option String
  email : Option String
  password : Option String
  is_active : Option Bool
  roles : Option (List String)
  deriving Repr, DecidableEq

/-- Request body of POST /tenants (routes/tenant.py, `TenantCreate`). -/
structure TenantCreate where
  name : String
  domain : String
  owner_id : String
  deriving Repr, DecidableEq

/-- Request body of POST /subscriptions (routes/subscription.py,
`SubscriptionCreate`). -/
structure SubscriptionCreate where
  tenant_id : String
  plan : String
  max_users : Option Int
  billing_cycle : String
  payment_method_id : Option String
  deriving Repr, DecidableEq

/-- Request body of PUT /subscriptions/:id (routes/subscription.py,
`SubscriptionUpdate`). -/
structure SubscriptionUpdate where
  plan : Option String
  is_active : Option Bool
  billing_cycle : Option String
  max_users : Option Int
  payment_method_id : Option String
  deriving Repr, DecidableEq

/-- The password hashing primitive is out of scope (spec §1); it is
modelled as an opaque injective placeholder whose exact value no claim
depends on. -/
def hash_password (p : String) : String := p

/-- Python `roles or ["user"]` from `User.__init__` (user.py line 43):
`None` and the empty list are both falsy, so both fall back to the
default `["user"]`. -/
def rolesOrDefault : Option (List String) → List String
  | none => ["user"]
  | some [] => ["user"]
  | some r => r

/-- The User record built by POST /users (routes/user.py lines 121-127
feeding `User.__init__`): active, roles defaulted by Python truthiness. -/
def mkUser (newId : String) (req : UserCreate) : User :=
  { id := newId, name := req.name, email := req.email,
    password := hash_password req.password, is_active := true,
    roles := rolesOrDefault req.roles }

/-- POST /users (`create_user`, routes/user.py lines 108-138).  The
endpoint declares no authentication dependency: no token is consumed.
Duplicate email fails 400; otherwise the new user is persisted. -/
def createUser (st : Store) (req : UserCreate) (newId : String) :
    Except HTTPError (User × Store) :=
  match st.findUserByEmail req.email with
  | some _ => .error ⟨400, "A user with this email already exists"⟩
  | none =>
    let new_user := mkUser newId req
    .ok (new_user, st.saveUser new_user)

/-- GET /users/:id (`get_user`, routes/user.py lines 85-106).  The
authorization check (`user_id != current_user.id`) runs before the
existence lookup. -/
def getUser (st : Store) (current_user : User) (user_id : String) :
    Except HTTPError User :=
  if user_id ≠ current_user.id then
    .error ⟨403, "Not authorized to access this user data"⟩
  else
    match st.findUser user_id with
    | none => .error ⟨404, "User not found"⟩
    | some u => .ok u

/-- The email branch of `update_user` (routes/user.py lines 159-165): a
changed email is re-checked for uniqueness against other users. -/
def emailStep (st : Store) (user_id : String) (u : User) :
    Option String → Except HTTPError User
  | none => .ok u
  | some e =>
    if e ≠ u.email then
      match st.findUserByEmail e with
      | some other =>
          if other.id ≠ user_id then .error ⟨400, "This email is already in use"⟩
          else .ok { u with email := e }
      | none => .ok { u with email := e }
    else .ok { u with email := e }

/-- PUT /users/:id (`update_user`, routes/user.py lines 140-186).  The
gate on line 149 is `user_id != current_user.id or "admin" not in
current_user.roles`, copied verbatim: the disjunction denies a non-admin
user updating their own record. -/
def updateUser (st : Store) (current_user : User) (user_id : String)
    (upd : UserUpdate) : Except HTTPError (User × Store) :=
  if user_id ≠ current_user.id ∨ "admin" ∉ current_user.roles then
    .error ⟨403, "Not authorized to update this user"⟩
  else
    match st.findUser user_id with
    | none => .error ⟨404, "User not found"⟩
    | some existing =>
      let u1 := match upd.name with
        | some n => { existing with name := n }
        | none => existing
      match emailStep st user_id u1 upd.email with
      | .error e => .error e
      | .ok u2 =>
        let u3 := match upd.password with
          | some p => { u2 with password := hash_password p }
          | none => u2
        let u4 := match upd.is_active with
          | some b => { u3 with is_active := b }
          | none => u3
        let u5 := match upd.roles with
          | some r => { u4 with roles := r }
          | none => u4
        .ok (u5, st.saveUser u5)

/-- POST /tenants (`create_tenant`, routes/tenant.py lines 84-119).  Gate
order: caller must be the requested owner (403), owner must exist (404),
domain must be unregistered by any tenant, active or not (400). -/
def createTenant (st : Store) (current_user : User) (req : TenantCreate)
    (newId : String) : Except HTTPError (Tenant × Store) :=
  if req.owner_id ≠ current_user.id then
    .error ⟨403, "Unauthorized"⟩
  else
    match st.findUser req.owner_id with
    | none => .error ⟨404, "Owner user not found"⟩
    | some _ =>
      match st.findTenantByDomain req.domain with
      | some _ => .error ⟨400, "A tenant with this domain already exists"⟩
      | none =>
        let t : Tenant := { id := newId, name := req.name, domain := req.domain,
                            owner_id := req.owner_id, is_active := true }
        .ok (t, st.saveTenant t)

/-- The store after a POST /tenants call: an HTTPException is raised
before any write, so a failed call leaves the collections untouched. -/
def afterCreateTenant (st : Store) (current_user : User) (req : TenantCreate)
    (newId : String) : Store :=
  match createTenant st current_user req newId with
  | .error _ => st
  | .ok (_, st') => st'

/-- POST /subscriptions (`create_subscription`, routes/subscription.py
lines 98-131).  The tenant must exist (404); the gate on lines 109-110 is
`tenant.owner_id != current_user.id`, with no admin branch. -/
def createSubscription (st : Store) (current_user : User)
    (req : SubscriptionCreate) (newId : String) :
    Except HTTPError (Subscription × Store) :=
  match st.findTenant req.tenant_id with
  | none => .error ⟨404, "Tenant not found"⟩
  | some tenant =>
    if tenant.owner_id ≠ current_user.id then
      .error ⟨403, "Only the tenant owner can create subscriptions"⟩
    else
      let sub : Subscription :=
        { id := newId, tenant_id := req.tenant_id, plan := req.plan,
          is_active := true, subscribed_user_ids := [],
          max_users := req.max_users, billing_cycle := req.billing_cycle,
          payment_method_id := req.payment_method_id }
      .ok (sub, st.saveSubscription sub)

/-- The field-by-field partial update applied by PUT /subscriptions/:id
(routes/subscription.py lines 157-171); absent fields are unchanged. -/
def applySubscriptionUpdate (s : Subscription) (upd : SubscriptionUpdate) :
    Subscription :=
  let s1 := match upd.plan with
    | some p => { s with plan := p }
    | none => s
  let s2 := match upd.is_active with
    | some b => { s1 with is_active := b }
    | none => s1
  let s3 := match upd.billing_cycle with
    | some b => { s2 with billing_cycle := b }
    | none => s2
  let s4 := match upd.max_users with
    | some m => { s3 with max_users := some m }
    | none => s3
  match upd.payment_method_id with
  | some p => { s4 with payment_method_id := some p }
  | none => s4

/-- PUT /subscriptions/:id (`update_subscription`, routes/subscription.py
lines 133-185).  Subscription then tenant must exist (404); the gate on
lines 154-155 is owner-only with no admin branch. -/
def updateSubscription (st : Store) (current_user : User) (sid : String)
    (upd : SubscriptionUpdate) : Except HTTPError (Subscription × Store) :=
  match st.findSubscription sid with
  | none => .error ⟨404, "Subscription not found"⟩
  | some existing =>
    match st.findTenant existing.tenant_id with
    | none => .error ⟨404, "Tenant not found"⟩
    | some tenant =>
      if tenant.owner_id ≠ current_user.id then
        .error ⟨403, "Only the tenant owner can update this subscription"⟩
      else
        let s' := applySubscriptionUpdate existing upd
        .ok (s', st.saveSubscription s')

/-- POST /subscriptions/:id/users (`add_user_to_subscription`,
routes/subscription.py lines 187-230).  Subscription then tenant must
exist (404, before authorization); the gate on line 208 permits the
tenant owner or an admin; the target user must exist (404, after the
gate); an already-subscribed user is rejected 400; then `add_user` runs,
with a False result surfaced as 400 capacity. -/
def addUserToSubscription (st : Store) (current_user : User)
    (subscription_id user_id : String) :
    Except HTTPError (Subscription × Store) :=
  match st.findSubscription subscription_id with
  | none => .error ⟨404, "Subscription not found"⟩
  | some sub =>
    match st.findTenant sub.tenant_id with
    | none => .error ⟨404, "Tenant not found"⟩
    | some tenant =>
      if tenant.owner_id ≠ current_user.id ∧ "admin" ∉ current_user.roles then
        .error ⟨403, "Only the tenant owner can add users to this subscription"⟩
      else
        match st.findUser user_id with
        | none => .error ⟨404, "User not found"⟩
        | some _ =>
          if user_id ∈ sub.subscribed_user_ids then
            .error ⟨400, "User is already subscribed"⟩
          else
            let res := sub.add_user user_id
            if res.1 then .ok (res.2, st.saveSubscription res.2)
            else .error ⟨400, "Subscription is at maximum capacity"⟩

/-- DELETE /subscriptions/:id/users/:uid (`remove_user_from_subscription`,
routes/subscription.py lines 232-266).  Same existence and owner-or-admin
gating as adding; a False `remove_user` result is surfaced as 400. -/
def removeUserFromSubscription (st : Store) (current_user : User)
    (subscription_id user_id : String) :
    Except HTTPError (Subscription × Store) :=
  match st.findSubscription subscription_id with
  | none => .error ⟨404, "Subscription not found"⟩
  | some sub =>
    match st.findTenant sub.tenant_id with
    | none => .error ⟨404, "Tenant not found"⟩
    | some tenant =>
      if tenant.owner_id ≠ current_user.id ∧ "admin" ∉ current_user.roles then
        .error ⟨403, "Only the tenant owner can remove users from this subscription"⟩
      else
        let res := sub.remove_user user_id
        if res.1 then .ok (res.2, st.saveSubscription res.2)
        else .error ⟨400, "User is not subscribed"⟩

/-- GET /subscriptions/:id/users (`get_subscription_users`,
routes/subscription.py lines 268-298).  The gate on lines 284-285 permits
only the tenant owner or an admin; subscription membership grants
nothing.  `get_subscribed_users` resolves the member ids against the
users collection (`$in` query). -/
def getSubscriptionUsers (st : Store) (current_user : User)
    (subscription_id : String) : Except HTTPError (List User) :=
  match st.findSubscription subscription_id with
  | none => .error ⟨404, "Subscription not found"⟩
  | some sub =>
    match st.findTenant sub.tenant_id with
    | none => .error ⟨404, "Tenant not found"⟩
    | some tenant =>
      if tenant.owner_id ≠ current_user.id ∧ "admin" ∉ current_user.roles then
        .error ⟨403, "Only the tenant owner can retrieve subscribed users in this subscription."⟩
      else
        .ok (st.users.filter (fun u => sub.subscribed_user_ids.contains u.id))

/-- The response body of GET /subscriptions/:id (routes/subscription.py
lines 83-96), including the full `subscribed_user_ids` list. -/
structure SubscriptionDetail where
  id : String
  tenant_id : String
  plan : String
  is_active : Bool
  user_count : Nat
  max_users : Option Int
  subscribed_user_ids : List String
  has_available_seats : Bool
  deriving Repr, DecidableEq

/-- The serialization of a found subscription by GET /subscriptions/:id. -/
def subscriptionDetailOf (sub : Subscription) : SubscriptionDetail :=
  { id := sub.id, tenant_id := sub.tenant_id, plan := sub.plan,
    is_active := sub.is_active,
    user_count := sub.subscribed_user_ids.length,
    max_users := sub.max_users,
    subscribed_user_ids := sub.subscribed_user_ids,
    has_available_seats := sub.has_available_seats }

/-- GET /subscriptions/:id (`get_subscription`, routes/subscription.py
lines 73-96).  The source endpoint declares no authentication dependency
at all; the `caller` argument models an arbitrary bearer of the request
(`none` = unauthenticated) and is never read by the body. -/
def getSubscription (st : Store) (subscription_id : String)
    (_caller : Option User) : Except HTTPError SubscriptionDetail :=
  match st.findSubscription subscription_id with
  | none => .error ⟨404, "Subscription not found"⟩
  | some sub => .ok (subscriptionDetailOf sub)

/-- True when a route call was denied with HTTP 403 Forbidden. -/
def isForbidden {α : Type} : Except HTTPError α → Bool
  | .error e => e.status == 403
  | .ok _ => false

/-- Non-admin user, used to exercise the self-access rule. -/
def c3user : User :=
  { id := "u1", name := "Alice", email := "alice@example.com",
    password := "h", is_active := true, roles := ["user"] }

/-- Store holding only c3user. -/
def c3store : Store := { users := [c3user], tenants := [], subscriptions := [] }

/-- A plain profile update request. -/
def c3upd : UserUpdate :=
  { name := some "Alice Smith", email := none, password := none,
    is_active := none, roles := none }

/-- C3, evaluated at the failing input: the caller with roles `["user"]`
updating their own record is denied 403, because the gate on
routes/user.py line 149 joins the self check and the admin check with
`or` instead of `and`; the self read on the same store succeeds. -/
theorem c3_self_update_forbidden :
    c3user.id = "u1" ∧ "admin" ∉ c3user.roles ∧
    updateUser c3store c3user "u1" c3upd =
      .error ⟨403, "Not authorized to update this user"⟩ ∧
    getUser c3store c3user "u1" = .ok c3user := by
  refine ⟨rfl, by decide, rfl, rfl⟩

/-- Admin user who does not own any tenant. -/
def c4admin : User :=
  { id := "adm1", name := "Root", email := "root@example.com",
    password := "h", is_active := true, roles := ["admin"] }

/-- User owning tenant t1. -/
def c4owner : User :=
  { id := "owner1", name := "Owner", email := "owner@example.com",
    password := "h", is_active := true, roles := ["user"] }

/-- Ordinary member user. -/
def c4member : User :=
  { id := "bob", name := "Bob", email := "bob@example.com",
    password := "h", is_active := true, roles := ["user"] }

/-- Tenant owned by owner1. -/
def c4tenant : Tenant :=
  { id := "t1", name := "Acme", domain := "acme.co", owner_id := "owner1",
    is_active := true }

/-- Subscription under t1 with member bob. -/
def c4sub : Subscription :=
  { id := "s1", tenant_id := "t1", plan := "basic", is_active := true,
    subscribed_user_ids := ["bob"], max_users := some 5,
    billing_cycle := "monthly", payment_method_id := none }

/-- Store for the admin-override scenarios. -/
def c4store : Store :=
  { users := [c4owner, c4admin, c4member], tenants := [c4tenant],
    subscriptions := [c4sub] }

/-- Subscription-creation request aimed at t1. -/
def c4req : SubscriptionCreate :=
  { tenant_id := "t1", plan := "basic", max_users := none,
    billing_cycle := "monthly", payment_method_id := none }

/-- Subscription update request changing the plan. -/
def c4upd : SubscriptionUpdate :=
  { plan := some "pro", is_active := none, billing_cycle := none,
    max_users := none, payment_method_id := none }

/-- C4 counterexample: an admin who is not the tenant owner is denied 403
on create-subscription, although the claim says every tenant-owner-gated
operation admits admins. -/
theorem c4_counterexample :
    "admin" ∈ c4admin.roles ∧ c4admin.id ≠ c4tenant.owner_id ∧
    createSubscription c4store c4admin c4req "s9" =
      .error ⟨403, "Only the tenant owner can create subscriptions"⟩ := by
  refine ⟨by decide, by decide, rfl⟩

/-- C4 amended: the admin override holds for the membership operations
(add member, remove member, list members), which never answer 403 to an
admin; create-subscription and update-subscription are strictly
owner-only and deny any non-owner, admins included. -/
theorem c4_amended (st : Store) (caller : User) (sid uid newId : String)
    (req : SubscriptionCreate) (upd : SubscriptionUpdate) (t t2 : Tenant)
    (sub : Subscription)
    (hadmin : "admin" ∈ caller.roles)
    (ht : st.findTenant req.tenant_id = some t)
    (hto : t.owner_id ≠ caller.id)
    (hs : st.findSubscription sid = some sub)
    (ht2 : st.findTenant sub.tenant_id = some t2)
    (ht2o : t2.owner_id ≠ caller.id) :
    isForbidden (addUserToSubscription st caller sid uid) = false ∧
    isForbidden (removeUserFromSubscription st caller sid uid) = false ∧
    isForbidden (getSubscriptionUsers st caller sid) = false ∧
    createSubscription st caller req newId =
      .error ⟨403, "Only the tenant owner can create subscriptions"⟩ ∧
    updateSubscription st caller sid upd =
      .error ⟨403, "Only the tenant owner can update this subscription"⟩ := by
  have hgate : ¬(t2.owner_id ≠ caller.id ∧ "admin" ∉ caller.roles) :=
    fun h => h.2 hadmin
  refine ⟨?_, ?_, ?_, ?_, ?_⟩
  · simp only [addUserToSubscription, hs, ht2]
    rw [if_neg hgate]
    cases hfu : st.findUser uid with
    | none => rfl
    | some u =>
      by_cases hmem : uid ∈ sub.subscribed_user_ids
      · rw [if_pos hmem]
        rfl
      · rw [if_neg hmem]
        cases hadd : (sub.add_user uid).1 <;> simp [hadd, isForbidden]
  · simp only [removeUserFromSubscription, hs, ht2]
    rw [if_neg hgate]
    cases hrem : (sub.remove_user uid).1 <;> simp [hrem, isForbidden]
  · simp only [getSubscriptionUsers, hs, ht2]
    rw [if_neg hgate]
    rfl
  · simp only [createSubscription, ht]
    rw [if_pos hto]
  · simp only [updateSubscription, hs, ht2]
    rw [if_pos ht2o]

/-- Witness for the amended C4: the admin performs all five calls on the
concrete store; the membership calls are not forbidden, the owner-only
calls are. -/
theorem c4_amended_witness :
    isForbidden (addUserToSubscription c4store c4admin "s1" "owner1") = false ∧
    isForbidden (removeUserFromSubscription c4store c4admin "s1" "owner1") = false ∧
    isForbidden (getSubscriptionUsers c4store c4admin "s1") = false ∧
    createSubscription c4store c4admin c4req "s9" =
      .error ⟨403, "Only the tenant owner can create subscriptions"⟩ ∧
    updateSubscription c4store c4admin "s1" c4upd =
      .error ⟨403, "Only the tenant owner can update this subscription"⟩ :=
  c4_amended c4store c4admin "s1" "owner1" "s9" c4req c4upd c4tenant c4tenant
    c4sub (by decide) rfl (by decide) rfl rfl (by decide)

/-- Member user bob for the membership-access scenario. -/
def c5member : User :=
  { id := "bob", name := "Bob", email := "bob@example.com",
    password := "h", is_active := true, roles := ["user"] }

/-- Tenant owned by owner1. -/
def c5tenant : Tenant :=
  { id := "t1", name := "Acme", domain := "acme.co", owner_id := "owner1",
    is_active := true }

/-- Subscription whose members are bob and carol. -/
def c5sub : Subscription :=
  { id := "s1", tenant_id := "t1", plan := "basic", is_active := true,
    subscribed_user_ids := ["bob", "carol"], max_users := some 5,
    billing_cycle := "monthly", payment_method_id := none }

/-- Store for the membership-access scenario. -/
def c5store : Store :=
  { users := [c5member], tenants := [c5tenant], subscriptions := [c5sub] }

/-- C5 counterexample: bob is a member of s1, not the owner and not an
admin, yet get-members answers 403, although the claim says membership
grants read access to the member list. -/
theorem c5_counterexample :
    c5member.id ∈ c5sub.subscribed_user_ids ∧
    c5member.id ≠ c5tenant.owner_id ∧ "admin" ∉ c5member.roles ∧
    getSubscriptionUsers c5store c5member "s1" =
      .error ⟨403, "Only the tenant owner can retrieve subscribed users in this subscription."⟩ := by
  refine ⟨by decide, by decide, by decide, rfl⟩

/-- C5 amended: being listed in `subscribed_user_ids` grants nothing at
these endpoints: a member who is neither the tenant owner nor an admin is
denied 403 both on reading the member list and on removing another
member. -/
theorem c5_amended (st : Store) (caller : User) (sid other : String)
    (sub : Subscription) (tenant : Tenant)
    (hs : st.findSubscription sid = some sub)
    (ht : st.findTenant sub.tenant_id = some tenant)
    (_hmem : caller.id ∈ sub.subscribed_user_ids)
    (hnotowner : tenant.owner_id ≠ caller.id)
    (hnotadmin : "admin" ∉ caller.roles) :
    getSubscriptionUsers st caller sid =
      .error ⟨403, "Only the tenant owner can retrieve subscribed users in this subscription."⟩ ∧
    removeUserFromSubscription st caller sid other =
      .error ⟨403, "Only the tenant owner can remove users from this subscription"⟩ := by
  have hgate : tenant.owner_id ≠ caller.id ∧ "admin" ∉ caller.roles :=
    ⟨hnotowner, hnotadmin⟩
  constructor
  · simp only [getSubscriptionUsers, hs, ht]
    rw [if_pos hgate]
  · simp only [removeUserFromSubscription, hs, ht]
    rw [if_pos hgate]

/-- Witness for the amended C5 at the concrete member bob. -/
theorem c5_amended_witness :
    getSubscriptionUsers c5store c5member "s1" =
      .error ⟨403, "Only the tenant owner can retrieve subscribed users in this subscription."⟩ ∧
    removeUserFromSubscription c5store c5member "s1" "carol" =
      .error ⟨403, "Only the tenant owner can remove users from this subscription"⟩ :=
  c5_amended c5store c5member "s1" "carol" c5sub c5tenant rfl rfl (by decide)
    (by decide) (by decide)

/-- C6: with the caller passing the earlier gates (caller is the
requested owner and that owner exists), a tenant-create request whose
domain is already held by any existing tenant, active or not, fails with
the duplicate-domain conflict error, and the existing tenant record is
still in the store afterwards. -/
theorem c6_domain_conflict (st : Store) (caller : User) (req : TenantCreate)
    (newId : String) (t : Tenant)
    (ht : t ∈ st.tenants) (hd : t.domain = req.domain)
    (hown : req.owner_id = caller.id)
    (howner : (st.findUser req.owner_id).isSome = true) :
    createTenant st caller req newId =
      .error ⟨400, "A tenant with this domain already exists"⟩ ∧
    t ∈ (afterCreateTenant st caller req newId).tenants := by
  have hfind : (st.findTenantByDomain req.domain).isSome = true := by
    unfold Store.findTenantByDomain
    rw [List.find?_isSome]
    exact ⟨t, ht, by simp [hd]⟩
  have hmain : createTenant st caller req newId =
      .error ⟨400, "A tenant with this domain already exists"⟩ := by
    unfold createTenant
    rw [if_neg (not_ne_iff.mpr hown)]
    cases hu : st.findUser req.owner_id with
    | none =>
      rw [hu] at howner
      simp at howner
    | some u =>
      cases hdom : st.findTenantByDomain req.domain with
      | none =>
        rw [hdom] at hfind
        simp at hfind
      | some t' => rfl
  refine ⟨hmain, ?_⟩
  unfold afterCreateTenant
  rw [hmain]
  exact ht

/-- Owner of the pre-existing tenant in the C6 scenario. -/
def c6owner : User :=
  { id := "o1", name := "Owner", email := "o1@example.com",
    password := "h", is_active := true, roles := ["user"] }

/-- Pre-existing tenant holding the domain; deliberately inactive, since
the uniqueness check ignores is_active. -/
def c6tenant : Tenant :=
  { id := "t1", name := "Acme", domain := "acme.co", owner_id := "o1",
    is_active := false }

/-- Store for the duplicate-domain scenario. -/
def c6store : Store :=
  { users := [c6owner], tenants := [c6tenant], subscriptions := [] }

/-- Second create request reusing the domain acme.co. -/
def c6req : TenantCreate :=
  { name := "Acme Two", domain := "acme.co", owner_id := "o1" }

/-- Witness for C6: the duplicate-domain request fails and the inactive
holder of the domain is untouched. -/
theorem c6_domain_conflict_witness :
    createTenant c6store c6owner c6req "t2" =
      .error ⟨400, "A tenant with this domain already exists"⟩ ∧
    c6tenant ∈ (afterCreateTenant c6store c6owner c6req "t2").tenants :=
  c6_domain_conflict c6store c6owner c6req "t2" c6tenant (by decide) rfl rfl rfl

/-- User for the 404-before-403 scenario. -/
def c7user : User :=
  { id := "u1", name := "Alice", email := "alice@example.com",
    password := "h", is_active := true, roles := ["user"] }

/-- Store holding only c7user; no user "ghost", no subscriptions. -/
def c7store : Store := { users := [c7user], tenants := [], subscriptions := [] }

/-- C7 counterexample: GET /users/ghost by a caller who is not ghost
answers 403, not 404, although ghost does not exist: the user route runs
its authorization check before the existence lookup. -/
theorem c7_counterexample :
    c7store.findUser "ghost" = none ∧
    getUser c7store c7user "ghost" =
      .error ⟨403, "Not authorized to access this user data"⟩ := by
  exact ⟨rfl, rfl⟩

/-- C7 amended: the subscription membership routes do return 404 for a
missing target before any ownership or role check, for every caller; but
the user read route checks authorization first, so a nonexistent user id
yields 403 whenever the caller asks about anyone but themselves. -/
theorem c7_amended (st : Store) (caller : User) (sid uid uid2 : String)
    (hnone : st.findSubscription sid = none) (hne : uid2 ≠ caller.id) :
    addUserToSubscription st caller sid uid =
      .error ⟨404, "Subscription not found"⟩ ∧
    removeUserFromSubscription st caller sid uid =
      .error ⟨404, "Subscription not found"⟩ ∧
    getUser st caller uid2 =
      .error ⟨403, "Not authorized to access this user data"⟩ := by
  refine ⟨?_, ?_, ?_⟩
  · simp only [addUserToSubscription, hnone]
  · simp only [removeUserFromSubscription, hnone]
  · simp only [getUser]
    rw [if_pos hne]

/-- Witness for the amended C7 on the concrete store. -/
theorem c7_amended_witness :
    addUserToSubscription c7store c7user "nosub" "u9" =
      .error ⟨404, "Subscription not found"⟩ ∧
    removeUserFromSubscription c7store c7user "nosub" "u9" =
      .error ⟨404, "Subscription not found"⟩ ∧
    getUser c7store c7user "ghost" =
      .error ⟨403, "Not authorized to access this user data"⟩ :=
  c7_amended c7store c7user "nosub" "u9" "ghost" rfl (by decide)

/-- Subscription with two members for the open-read scenario. -/
def c9sub : Subscription :=
  { id := "s1", tenant_id := "t1", plan := "basic", is_active := true,
    subscribed_user_ids := ["a", "b"], max_users := some 2,
    billing_cycle := "monthly", payment_method_id := none }

/-- An unrelated authenticated user. -/
def c9user : User :=
  { id := "z9", name := "Zoe", email := "zoe@example.com",
    password := "h", is_active := true, roles := ["user"] }

/-- Store for the open-read scenario. -/
def c9store : Store := { users := [c9user], tenants := [], subscriptions := [c9sub] }

/-- C9: GET /subscriptions/:id consults no caller identity: any two
callers, an unauthenticated one included, receive the identical response,
which carries the full `subscribed_user_ids` list; there is no
Unauthorized or Forbidden branch in the handler. -/
theorem c9_get_subscription_caller_blind (st : Store) (sid : String)
    (caller1 caller2 : Option User) (sub : Subscription)
    (hs : st.findSubscription sid = some sub) :
    getSubscription st sid caller1 = getSubscription st sid caller2 ∧
    getSubscription st sid caller1 = .ok (subscriptionDetailOf sub) ∧
    (subscriptionDetailOf sub).subscribed_user_ids = sub.subscribed_user_ids := by
  unfold getSubscription
  rw [hs]
  exact ⟨rfl, rfl, rfl⟩

/-- Witness for C9: the unauthenticated caller and an unrelated user get
the same full response. -/
theorem c9_get_subscription_caller_blind_witness :
    getSubscription c9store "s1" none = getSubscription c9store "s1" (some c9user) ∧
    getSubscription c9store "s1" none = .ok (subscriptionDetailOf c9sub) ∧
    (subscriptionDetailOf c9sub).subscribed_user_ids = c9sub.subscribed_user_ids :=
  c9_get_subscription_caller_blind c9store "s1" none (some c9user) c9sub rfl

/-- Empty store for the registration scenario. -/
def c10store : Store := { users := [], tenants := [], subscriptions := [] }

/-- Registration request with an explicitly empty roles list. -/
def c10req : UserCreate :=
  { name := "Eve", email := "eve@example.com", password := "pw",
    roles := some [] }

/-- Roles of the user created by a registration call, `none` on failure. -/
def createdRoles : Except HTTPError (User × Store) → Option (List String)
  | .ok (u, _) => some u.roles
  | .error _ => none

/-- C10 counterexample: a create-user request that supplies `roles = []`
gets the default `["user"]` instead of its roles verbatim, because
`roles or ["user"]` in `User.__init__` treats the empty list as falsy. -/
theorem c10_counterexample :
    c10req.roles = some [] ∧
    createdRoles (createUser c10store c10req "u1") = some ["user"] := by
  exact ⟨rfl, rfl⟩

/-- C10 amended: user creation consumes no token and, for a fresh email,
persists the request verbatim with the caller-supplied roles whenever the
roles list is non-empty (an admin role included); the default `["user"]`
applies when roles is omitted or is the empty list, both falsy in
Python. -/
theorem c10_roles_stored (st : Store) (req : UserCreate) (newId r : String)
    (rs : List String) (hfresh : st.findUserByEmail req.email = none) :
    createUser st req newId =
      .ok (mkUser newId req, st.saveUser (mkUser newId req)) ∧
    (mkUser newId req).roles = rolesOrDefault req.roles ∧
    rolesOrDefault (some (r :: rs)) = r :: rs ∧
    rolesOrDefault none = ["user"] ∧
    rolesOrDefault (some []) = ["user"] := by
  unfold createUser
  rw [hfresh]
  exact ⟨rfl, rfl, rfl, rfl, rfl⟩

/-- Registration request claiming the admin role without any token. -/
def c10areq : UserCreate :=
  { name := "Mallory", email := "mallory@example.com", password := "pw",
    roles := some ["admin"] }

/-- Witness for the amended C10: the unauthenticated admin-role request
succeeds and the stored roles are exactly `["admin"]`. -/
theorem c10_roles_stored_witness :
    createUser c10store c10areq "u2" =
      .ok (mkUser "u2" c10areq, c10store.saveUser (mkUser "u2" c10areq)) ∧
    (mkUser "u2" c10areq).roles = rolesOrDefault c10areq.roles ∧
    rolesOrDefault (some ["admin"]) = ["admin"] ∧
    rolesOrDefault none = ["user"] ∧
    rolesOrDefault (some []) = ["user"] :=
  c10_roles_stored c10store c10areq "u2" "admin" [] rfl

end SaaS
